import Mathlib

/-!
Shallow embedding of the little_bird Twitter client
(src/little_bird/little_bird.py) and proofs about it.

Modelling conventions:
* JSON values are the inductive `Json`; a Python `dict` is an association
  list `List (String × Json)` with the first binding of a key the one
  visible to lookup (Python dict keys are unique, so this is faithful).
* An HTTP response is `Response`: its status code, its raw body text, and
  the outcome of `response.json()` (`none` models a deserialization
  failure).
* Python exceptions are the inductive `PyErr`; each constructor records the
  exception class and its argument.  The Python class hierarchy is the
  separate `PyClass` / `classParent` pair, used for the claims about
  `except` clauses.
* Each client operation becomes a function from an HTTP oracle
  `send : Request → Response` (one call per request issued) and the callers
  arguments to `List Request × Except PyErr Json`: the list is the trace of
  requests actually issued, the second component the returned value or the
  raised exception.  The paginated operation takes the finite list of
  responses the server produces; running past its end models a transport
  (connection) failure.
-/

/-- JSON values, the possible results of response.json() in Python. -/
inductive Json where
  | null : Json
  | bool : Bool → Json
  | num : Int → Json
  | str : String → Json
  | arr : List Json → Json
  | obj : List (String × Json) → Json

/-- Lookup in a Python dict modelled as an association list. -/
def dictGet {α : Type} : List (String × α) → String → Option α
  | [], _ => none
  | (k2, v) :: rest, k => if k2 = k then some v else dictGet rest k

/-- Python dict.update with a single key: replace the binding in place if
the key is present, otherwise append it (insertion order semantics). -/
def dictUpdate : List (String × Json) → String → Json → List (String × Json)
  | [], k, v => [(k, v)]
  | (k2, v2) :: rest, k, v =>
      if k2 = k then (k2, v) :: rest else (k2, v2) :: dictUpdate rest k v

/-- Python truthiness of a JSON value (bool(x)). -/
def pyBool : Json → Bool
  | .null => false
  | .bool b => b
  | .num n => n != 0
  | .str s => s != ""
  | .arr xs => !xs.isEmpty
  | .obj kvs => !kvs.isEmpty

/-- Characters stripped by Python str.strip() (ASCII whitespace). -/
def pyWhitespace (c : Char) : Bool :=
  c = ' ' || c = Char.ofNat 9 || c = Char.ofNat 10 || c = Char.ofNat 13
    || c = Char.ofNat 11 || c = Char.ofNat 12

/-- Python str.strip(): drop leading and trailing whitespace. -/
def pyStrip (s : String) : String :=
  String.mk (((s.data.dropWhile pyWhitespace).reverse.dropWhile pyWhitespace).reverse)

/-- Python len() of a string: the number of code points. -/
def pyLen (s : String) : Nat := s.data.length

/-- Python str.endswith, over code-point lists (kernel reducible). -/
def strEndsWith (s suf : String) : Bool :=
  s.data.reverse.take suf.data.length = suf.data.reverse

/-- A single quote character, for rendering Python repr of strings. -/
def squo : String := String.singleton (Char.ofNat 39)

/-- Python repr/str of a JSON value, as interpolated into f-strings by the
source (dicts print as \x7b...\x7d with single-quoted keys and strings;
string escaping inside values is not modelled). -/
def pyRepr : Json → String
  | .null => "None"
  | .bool b => if b then "True" else "False"
  | .num n => toString n
  | .str s => squo ++ s ++ squo
  | .arr xs => "[" ++ String.intercalate ", "
      (xs.attach.map (fun x => pyRepr x.1)) ++ "]"
  | .obj kvs => "\x7b" ++ String.intercalate ", "
      (kvs.attach.map (fun kv => squo ++ kv.1.1 ++ squo ++ ": " ++ pyRepr kv.1.2))
      ++ "\x7d"
decreasing_by
  · have := List.sizeOf_lt_of_mem x.2
    simp only [Json.arr.sizeOf_spec] at *
    omega
  · have h1 := List.sizeOf_lt_of_mem kv.2
    rcases kv with ⟨⟨a, b⟩, hm⟩
    simp only [Json.obj.sizeOf_spec, Prod.mk.sizeOf_spec] at *
    omega

/-- Python exceptions raised by the source, with their arguments.
exc is the plain builtin Exception; connectionError models the transport
failure (requests.exceptions.ConnectionError) raised when the server does
not answer a request. -/
inductive PyErr where
  | exc : String → PyErr
  | twitterError : Json → PyErr
  | duplicateTweetError : Json → PyErr
  | typeError : String → PyErr
  | valueError : String → PyErr
  | overflowError : String → PyErr
  | keyError : String → PyErr
  | attributeError : String → PyErr
  | assertionError : String → PyErr
  | connectionError : PyErr

/-- The exception classes relevant to the source, as declared in Python and
in lines 17-22 of the source. -/
inductive PyClass where
  | baseExceptionC
  | exceptionC
  | twitterErrorC
  | duplicateTweetErrorC
  | typeErrorC
  | valueErrorC
  | overflowErrorC
  | keyErrorC
  | attributeErrorC
  | assertionErrorC
  | connectionErrorC
deriving DecidableEq, Fintype, Repr

/-- Direct base class of each class.  TwitterError derives from
BaseException (source line 17); DuplicateTweetError derives from
TwitterError (source line 21); the builtin error classes derive from
Exception, which derives from BaseException. -/
def classParent : PyClass → Option PyClass
  | .baseExceptionC => none
  | .exceptionC => some .baseExceptionC
  | .twitterErrorC => some .baseExceptionC
  | .duplicateTweetErrorC => some .twitterErrorC
  | .typeErrorC => some .exceptionC
  | .valueErrorC => some .exceptionC
  | .overflowErrorC => some .exceptionC
  | .keyErrorC => some .exceptionC
  | .attributeErrorC => some .exceptionC
  | .assertionErrorC => some .exceptionC
  | .connectionErrorC => some .exceptionC

/-- The linearized ancestor chain of a class (itself first). -/
def classMro : PyClass → List PyClass
  | .baseExceptionC => [.baseExceptionC]
  | .exceptionC => [.exceptionC, .baseExceptionC]
  | .twitterErrorC => [.twitterErrorC, .baseExceptionC]
  | .duplicateTweetErrorC => [.duplicateTweetErrorC, .twitterErrorC, .baseExceptionC]
  | c => [c, .exceptionC, .baseExceptionC]

/-- Python issubclass. -/
def isSubclassOf (a b : PyClass) : Bool := (classMro a).contains b

/-- The class of a raised exception. -/
def classOf : PyErr → PyClass
  | .exc _ => .exceptionC
  | .twitterError _ => .twitterErrorC
  | .duplicateTweetError _ => .duplicateTweetErrorC
  | .typeError _ => .typeErrorC
  | .valueError _ => .valueErrorC
  | .overflowError _ => .overflowErrorC
  | .keyError _ => .keyErrorC
  | .attributeError _ => .attributeErrorC
  | .assertionError _ => .assertionErrorC
  | .connectionError => .connectionErrorC

/-- Whether an except-clause for class c catches exception e. -/
def catches (c : PyClass) (e : PyErr) : Bool := isSubclassOf (classOf e) c

/-- An HTTP response: status code, raw body text, and the outcome of
response.json() (none when the body is not valid JSON). -/
structure Response where
  status_code : Nat
  text : String
  json : Option Json

/-- HTTP methods used by the client. -/
inductive Method where
  | get
  | post
  | delete
deriving DecidableEq, Repr

/-- A request issued by the client: method, url, query parameters, and the
JSON payload for POST. -/
structure Request where
  method : Method
  url : String
  params : List (String × Json)
  payload : Option Json

/-- Substring relation on strings (msg contains s). -/
def strContains (msg s : String) : Prop := ∃ a b, msg = a ++ s ++ b

/-- The message of the Exception raised by parse (source line 47). -/
def cannotParseMsg (status : Nat) (text : String) : String :=
  "Cannot parse the response. Status " ++ toString status ++ ": " ++ text ++ "."

/-- The message of the anomalous-status Exception built from the raw body
text (source line 131). -/
def statusTextMsg (status : Nat) (text : String) : String :=
  "Status " ++ toString status ++ ": " ++ text ++ "."

/-- The message of the anomalous-status Exception built from the parsed
content dict (source lines 176, 201, 226). -/
def statusContentMsg (status : Nat) (content : List (String × Json)) : String :=
  "Status " ++ toString status ++ ": " ++ pyRepr (.obj content) ++ "."

/-- Embedding of parse (source lines 25-54): JSON-deserialize the body and
require a dict, else raise Exception with the status and raw body; if the
dict has an errors key raise TwitterError with its value; otherwise return
the response together with the parsed dict. -/
def parse (r : Response) : Except PyErr (Response × List (String × Json)) :=
  match r.json with
  | some (.obj kvs) =>
      match dictGet kvs "errors" with
      | some v => .error (.twitterError v)
      | none => .ok (r, kvs)
  | _ => .error (.exc (cannotParseMsg r.status_code r.text))

/-- TWEET_MAX_LEN (source line 14). -/
def TWEET_MAX_LEN : Nat := 280

/-- The tweets endpoint (source lines 127, 160). -/
def tweetsUrl : String := "https://api.twitter.com/2/tweets"

/-- Whether a Python value is a list. -/
def isJList : Json → Bool
  | .arr _ => true
  | _ => false

/-- Python all() over a list value; on a non-list it is never evaluated by
the source (short-circuit), the value here is immaterial. -/
def pyAll : Json → Bool
  | .arr xs => xs.all pyBool
  | _ => true

/-- The elements of a list value (the source only reaches this on lists). -/
def jListElems : Json → List Json
  | .arr xs => xs
  | _ => []

/-- Check that every item of a list is a string, collecting the strings
(the item check done by Python str.join). -/
def collectStrs : List Json → Except PyErr (List String)
  | [] => .ok []
  | Json.str s :: rest =>
      (match collectStrs rest with
       | .ok ss => .ok (s :: ss)
       | .error e => .error e)
  | _ :: _ => .error (.typeError "sequence item: expected str instance")

/-- Python sep.join(xs): concatenate, raising TypeError on a non-string
item. -/
def strJoin (sep : String) (xs : List Json) : Except PyErr String :=
  match collectStrs xs with
  | .error e => .error e
  | .ok ss => .ok (String.intercalate sep ss)

/-- Embedding of LittleBird.get_tweets_by_id (source lines 109-133): a
falsy, non-list, or not-all-truthy ids raises ValueError before any
request; otherwise one GET with the comma-joined ids; after parse, a
status outside 200 and 400 raises Exception with the raw body text, else
the data field of the content is returned. -/
def get_tweets_by_id (send : Request → Response) (ids : Json) :
    List Request × Except PyErr Json :=
  if !pyBool ids || !isJList ids || !pyAll ids then
    ([], .error (.valueError "A list of tweet ids is required."))
  else
    match strJoin "," (jListElems ids) with
    | .error e => ([], .error e)
    | .ok joined =>
      let req : Request := ⟨.get, tweetsUrl, [("ids", .str joined)], none⟩
      let r := send req
      ([req],
        match parse r with
        | .error e => .error e
        | .ok (_, content) =>
          if r.status_code = 200 ∨ r.status_code = 400 then
            match dictGet content "data" with
            | some d => .ok d
            | none => .error (.keyError "data")
          else
            .error (.exc (statusTextMsg r.status_code r.text)))

/-- Embedding of LittleBird.tweet (source lines 135-176): non-string text
raises TypeError, the text is stripped, empty text raises ValueError, text
over TWEET_MAX_LEN raises OverflowError, all before any request; otherwise
one POST; after parse, status 201 returns the data field, status 403
raises DuplicateTweetError when the detail field (default empty string)
ends with the duplicate-content suffix and TwitterError otherwise (a
non-string detail would raise AttributeError at .endswith), and any other
status raises Exception. -/
def tweet (send : Request → Response) (text : Json) :
    List Request × Except PyErr Json :=
  match text with
  | .str s0 =>
    let s := pyStrip s0
    if s = "" then ([], .error (.valueError "Tweet should not be empty."))
    else if pyLen s > TWEET_MAX_LEN then
      ([], .error (.overflowError
        ("The intended tweet is too long (max: " ++ toString TWEET_MAX_LEN ++ ").")))
    else
      let req : Request := ⟨.post, tweetsUrl, [], some (.obj [("text", .str s)])⟩
      let r := send req
      ([req],
        match parse r with
        | .error e => .error e
        | .ok (_, content) =>
          if r.status_code = 201 then
            match dictGet content "data" with
            | some d => .ok d
            | none => .error (.keyError "data")
          else if r.status_code = 403 then
            match (dictGet content "detail").getD (.str "") with
            | .str d =>
              if strEndsWith d "duplicate content." then
                .error (.duplicateTweetError (.obj content))
              else .error (.twitterError (.obj content))
            | _ => .error (.attributeError "endswith")
          else .error (.exc (statusContentMsg r.status_code content)))
  | _ => ([], .error (.typeError "Tweet should be a string."))

/-- Embedding of LittleBird.untweet (source lines 178-201): one DELETE to
the tweet url; after parse, status 403 raises TwitterError with the
content, status 200 returns the data field, any other status raises
Exception. -/
def untweet (send : Request → Response) (id : String) :
    List Request × Except PyErr Json :=
  let req : Request := ⟨.delete, tweetsUrl ++ "/" ++ id, [], none⟩
  let r := send req
  ([req],
    match parse r with
    | .error e => .error e
    | .ok (_, content) =>
      if r.status_code = 403 then .error (.twitterError (.obj content))
      else if r.status_code = 200 then
        match dictGet content "data" with
        | some d => .ok d
        | none => .error (.keyError "data")
      else .error (.exc (statusContentMsg r.status_code content)))

/-- Embedding of LittleBird.users_by_username (source lines 203-226): one
GET; after parse, status 200 returns the data field and any other status
raises Exception. -/
def users_by_username (send : Request → Response) (usernames : List String) :
    List Request × Except PyErr Json :=
  let req : Request := ⟨.get, "https://api.twitter.com/2/users/by",
    [("usernames", .arr (usernames.map Json.str))], none⟩
  let r := send req
  ([req],
    match parse r with
    | .error e => .error e
    | .ok (_, content) =>
      if r.status_code = 200 then
        match dictGet content "data" with
        | some d => .ok d
        | none => .error (.keyError "data")
      else .error (.exc (statusContentMsg r.status_code content)))

/-- Civil date (year, month, day) from days since the epoch 1970-01-01, in
the proleptic Gregorian calendar (the standard days-to-civil algorithm;
models the calendar arithmetic of the external datetime library). -/
def civilFromDays (z0 : Int) : Int × Int × Int :=
  let z := z0 + 719468
  let era := z.ediv 146097
  let doe := z.emod 146097
  let yoe := (doe - doe.ediv 1460 + doe.ediv 36524 - doe.ediv 146096).ediv 365
  let y := yoe + era * 400
  let doy := doe - (365 * yoe + yoe.ediv 4 - yoe.ediv 100)
  let mp := (5 * doy + 2).ediv 153
  let d := doy - (153 * mp + 2).ediv 5 + 1
  let m := mp + (if mp < 10 then 3 else -9)
  (y + (if m ≤ 2 then 1 else 0), m, d)

/-- UTC civil fields (year, month, day, hour, minute, second) of a Unix
epoch second count. -/
def civilFromEpoch (t : Int) : Int × Int × Int × Int × Int × Int :=
  let days := t.ediv 86400
  let secs := t.emod 86400
  let ymd := civilFromDays days
  (ymd.1, ymd.2.1, ymd.2.2, secs.ediv 3600, (secs.ediv 60).emod 60, secs.emod 60)

/-- Zero-pad to two digits (strftime %m, %d, %H, %M, %S). -/
def pad2 (n : Int) : String := (if 0 ≤ n ∧ n < 10 then "0" else "") ++ toString n

/-- Zero-pad to four digits (strftime %Y). -/
def pad4 (n : Int) : String :=
  (if 0 ≤ n ∧ n < 10 then "000"
   else if 0 ≤ n ∧ n < 100 then "00"
   else if 0 ≤ n ∧ n < 1000 then "0" else "") ++ toString n

/-- The wire format "%Y-%m-%dT%H:%M:%SZ" applied to civil fields. -/
def formatCivil : Int × Int × Int × Int × Int × Int → String
  | (y, mo, d, h, mi, s) =>
      pad4 y ++ "-" ++ pad2 mo ++ "-" ++ pad2 d ++ "T"
        ++ pad2 h ++ ":" ++ pad2 mi ++ ":" ++ pad2 s ++ "Z"

/-- An epoch instant rendered in UTC in the wire format. -/
def formatEpochUTC (t : Int) : String := formatCivil (civilFromEpoch t)

/-- Model of a Python datetime value (external datetime library).  Its
civil fields are encoded, bijectively through the Gregorian calendar, as
the number of seconds those fields denote when read as UTC; tzOffset is
the attached timezone in seconds east of UTC (none = naive). -/
structure PyDatetime where
  civilSecs : Int
  tzOffset : Option Int

/-- datetime.datetime.fromtimestamp(t) with no tz argument: a naive
datetime holding the local civil reading of the instant, on a host whose
timezone is localOffset seconds east of UTC. -/
def fromtimestamp (localOffset t : Int) : PyDatetime :=
  PyDatetime.mk (t + localOffset) none

/-- datetime.astimezone(tz=timezone.utc): a naive datetime is interpreted
as local time; the result holds the UTC civil reading of the instant. -/
def astimezoneUtc (localOffset : Int) (dt : PyDatetime) : PyDatetime :=
  match dt.tzOffset with
  | none => PyDatetime.mk (dt.civilSecs - localOffset) (some 0)
  | some off => PyDatetime.mk (dt.civilSecs - off) (some 0)

/-- Embedding of strftime (source lines 57-59), parameterized by the host
timezone offset under which the code runs. -/
def strftime (localOffset timestamp : Int) : String :=
  let t := astimezoneUtc localOffset (fromtimestamp localOffset timestamp)
  formatCivil (civilFromEpoch t.civilSecs)

/-- The credential renaming table (source lines 73-80), in iteration
order. -/
def renameTable : List (String × String) :=
  [("consumer_key", "client_key"), ("consumer_secret", "client_secret"),
   ("access_token", "resource_owner_key"),
   ("access_token_secret", "resource_owner_secret")]

/-- Parameter names accepted by requests_oauthlib.OAuth1Session (external
library signature), the allowed keys of the assertion at source line 92. -/
def oauthAllowedKeys : List String :=
  ["client_key", "client_secret", "resource_owner_key",
   "resource_owner_secret", "callback_uri", "signature_method",
   "signature_type", "rsa_key", "verifier", "client_class",
   "force_include_body"]

/-- The credential check loop (source lines 82-84): for each key of the
rename table in order, a missing key raises KeyError and a falsy (empty)
value raises ValueError. -/
def checkCreds (auth : List (String × String)) : List String → Except PyErr Unit
  | [] => .ok ()
  | k :: ks =>
    match dictGet auth k with
    | none => .error (.keyError k)
    | some v =>
      if v = "" then
        .error (.valueError
          ("Nontrivial value expected for " ++ squo ++ k ++ squo ++ "."))
      else checkCreds auth ks

/-- Embedding of LittleBird.__init__ (source lines 63-95): validate the
four credentials, rename their keys to OAuth terminology, and assert that
every resulting key is an acceptable OAuth1Session argument; returns the
stored oauth_params. -/
def littleBirdInit (auth : List (String × String)) :
    Except PyErr (List (String × String)) :=
  match checkCreds auth (renameTable.map (fun kv => kv.1)) with
  | .error e => .error e
  | .ok _ =>
    let oauth_params := auth.map (fun kv => ((dictGet renameTable kv.1).getD kv.1, kv.2))
    if oauth_params.all (fun kv => oauthAllowedKeys.contains kv.1) then
      .ok oauth_params
    else .error (.assertionError "Unexpected arguments supplied in oauth_params.")

/-- Initial query parameters of tweets_by_user_id (source lines 247-256):
fixed tweet.fields and max_results 50, plus start_time and end_time
filters exactly when the given timestamps are truthy (Python if
start_time:). -/
def initParams (localOffset : Int) (start_time end_time : Option Int) :
    List (String × Json) :=
  let p : List (String × Json) :=
    [("tweet.fields", .str "created_at"), ("max_results", .num 50)]
  let p := match start_time with
    | some v => if v != 0 then dictUpdate p "start_time" (.str (strftime localOffset v)) else p
    | none => p
  match end_time with
  | some v => if v != 0 then dictUpdate p "end_time" (.str (strftime localOffset v)) else p
  | none => p

/-- One generator run of the pagination loop (source lines 259-270)
against the finite list of responses the server produces, from the given
query parameters.  Returns the parameter sets of the requests issued in
order, the items yielded (yield from data), and the exception that ends
the generator, if any (none = the loop reached break and the generator
finished).  Running past the end of the response list models the
transport failing on that request; membership tests or iteration over
non-container metadata and data values are modelled as TypeError. -/
def paginateLoop (params : List (String × Json)) :
    List Response → List (List (String × Json)) × List Json × Option PyErr
  | [] => ([params], [], some .connectionError)
  | r :: rest =>
    match parse r with
    | .error e => ([params], [], some e)
    | .ok (_, content) =>
      match dictGet content "meta" with
      | none => ([params], [], some (.keyError "meta"))
      | some meta =>
        match dictGet content "data" with
        | none => ([params], [], some (.keyError "data"))
        | some (.arr items) =>
          match meta with
          | .obj mkvs =>
            (match dictGet mkvs "next_token" with
             | some tok =>
               let next := paginateLoop (dictUpdate params "pagination_token" tok) rest
               (params :: next.1, items ++ next.2.1, next.2.2)
             | none => ([params], items, none))
          | _ => ([params], items, some (.typeError "argument of type is not a container"))
        | some _ => ([params], [], some (.typeError "yield from requires an iterable"))

/-- The per-user timeline endpoint (source line 244). -/
def userTweetsUrl (user_id : String) : String :=
  "https://api.twitter.com/2/users/" ++ user_id ++ "/tweets"

/-- Embedding of LittleBird.tweets_by_user_id (source lines 228-270): the
pagination loop run from the initial parameters, with each issued request
a GET to the per-user timeline endpoint. -/
def tweets_by_user_id (localOffset : Int) (user_id : String)
    (start_time end_time : Option Int) (resps : List Response) :
    List Request × List Json × Option PyErr :=
  let run := paginateLoop (initParams localOffset start_time end_time) resps
  (run.1.map (fun ps => Request.mk .get (userTweetsUrl user_id) ps none),
   run.2.1, run.2.2)

theorem dictGet_dictUpdate_same (d : List (String × Json)) (k : String) (v : Json) :
    dictGet (dictUpdate d k v) k = some v := by
  induction d with
  | nil => simp [dictUpdate, dictGet]
  | cons kv rest ih =>
    rcases kv with ⟨k2, v2⟩
    by_cases h : k2 = k <;> simp [dictUpdate, dictGet, h, ih]

theorem dictGet_dictUpdate_ne (d : List (String × Json)) (k k2 : String) (v : Json)
    (h : k2 ≠ k) : dictGet (dictUpdate d k v) k2 = dictGet d k2 := by
  induction d with
  | nil => simp [dictUpdate, dictGet, Ne.symm h]
  | cons kv rest ih =>
    rcases kv with ⟨k3, v3⟩
    by_cases h3 : k3 = k
    · subst h3
      simp [dictUpdate, dictGet, Ne.symm h]
    · simp [dictUpdate, dictGet, h3, ih]

theorem collectStrs_map_str (ss : List String) :
    collectStrs (ss.map Json.str) = .ok ss := by
  induction ss with
  | nil => rfl
  | cons s rest ih => simp [collectStrs, ih]

theorem strJoin_map_str (sep : String) (ss : List String) :
    strJoin sep (ss.map Json.str) = .ok (String.intercalate sep ss) := by
  simp [strJoin, collectStrs_map_str]

/-- C1: for every response processed by any operation: a body that does
not deserialize to a dict makes parse raise a plain Exception whose
message contains the HTTP status code and the raw body; a body that
deserializes to a dict carrying an errors key makes parse raise
TwitterError with the value of that key, and every calling operation
raises exactly that error whatever the status code, i.e. before any
status-code-specific handling. -/
theorem claim_C1 (r : Response) (kvs : List (String × Json)) (v : Json) :
    ((∀ fields, r.json ≠ some (Json.obj fields)) →
      parse r = .error (.exc (cannotParseMsg r.status_code r.text)) ∧
      strContains (cannotParseMsg r.status_code r.text) (toString r.status_code) ∧
      strContains (cannotParseMsg r.status_code r.text) r.text) ∧
    (r.json = some (Json.obj kvs) → dictGet kvs "errors" = some v →
      parse r = .error (.twitterError v) ∧
      (∀ s, pyStrip s ≠ "" → ¬ pyLen (pyStrip s) > TWEET_MAX_LEN →
        (tweet (fun _ => r) (Json.str s)).2 = .error (.twitterError v)) ∧
      (∀ id, (untweet (fun _ => r) id).2 = .error (.twitterError v)) ∧
      (∀ ss : List String, ss ≠ [] → (∀ s ∈ ss, s ≠ "") →
        (get_tweets_by_id (fun _ => r) (Json.arr (ss.map Json.str))).2
          = .error (.twitterError v)) ∧
      (∀ us, (users_by_username (fun _ => r) us).2 = .error (.twitterError v))) := by
  constructor
  · intro h
    refine ⟨?_, ?_, ?_⟩
    · unfold parse
      rcases hj : r.json with _ | j
      · rfl
      · cases j with
        | obj fields => exact absurd hj (h fields)
        | null => rfl
        | bool b => rfl
        | num n => rfl
        | str s => rfl
        | arr xs => rfl
    · exact ⟨"Cannot parse the response. Status ", ": " ++ r.text ++ ".",
        by simp [cannotParseMsg, String.append_assoc]⟩
    · exact ⟨"Cannot parse the response. Status " ++ toString r.status_code ++ ": ", ".",
        by simp [cannotParseMsg, String.append_assoc]⟩
  · intro hjson herr
    have hp : parse r = .error (.twitterError v) := by
      simp [parse, hjson, herr]
    refine ⟨hp, ?_, ?_, ?_, ?_⟩
    · intro s hs1 hs2
      simp [tweet, hs1, hs2, hp]
    · intro id
      simp [untweet, hp]
    · intro ss hne hel
      have hb : pyBool (Json.arr (ss.map Json.str)) = true := by
        simp [pyBool, hne]
      have ha : pyAll (Json.arr (ss.map Json.str)) = true := by
        simp [pyAll, pyBool]
        intro s hsmem
        exact hel s hsmem
      simp [get_tweets_by_id, hb, ha, isJList, jListElems, strJoin_map_str, hp]
    · intro us
      simp [users_by_username, hp]

theorem claim_C1_witness :
    parse (Response.mk 500 "oops" none)
      = .error (.exc (cannotParseMsg 500 "oops")) ∧
    (untweet
        (fun _ => Response.mk 200 "" (some (Json.obj [("errors", Json.str "boom")])))
        "20").2
      = .error (.twitterError (Json.str "boom")) := by
  constructor
  · exact ((claim_C1 (Response.mk 500 "oops" none) [] Json.null).1
      (by intro fields h; simp at h)).1
  · exact (((claim_C1
      (Response.mk 200 "" (some (Json.obj [("errors", Json.str "boom")])))
      [("errors", Json.str "boom")] (Json.str "boom")).2 rfl rfl).2.2.1 "20")

/-- C2: tweet raises TypeError on non-string input, ValueError on input
that is empty after stripping, OverflowError on stripped input longer
than 280, each with no HTTP request issued; the checks apply in that
order, and a valid text is sent trimmed in a single POST. -/
theorem claim_C2 (send : Request → Response) :
    (∀ t : Json, (∀ s, t ≠ Json.str s) →
      tweet send t = ([], .error (.typeError "Tweet should be a string."))) ∧
    (∀ s, pyStrip s = "" →
      tweet send (Json.str s)
        = ([], .error (.valueError "Tweet should not be empty."))) ∧
    (∀ s, pyStrip s ≠ "" → pyLen (pyStrip s) > TWEET_MAX_LEN →
      tweet send (Json.str s) = ([], .error (.overflowError
        ("The intended tweet is too long (max: "
          ++ toString TWEET_MAX_LEN ++ ").")))) ∧
    (∀ s, pyStrip s ≠ "" → ¬ pyLen (pyStrip s) > TWEET_MAX_LEN →
      (tweet send (Json.str s)).1 = [Request.mk .post tweetsUrl []
        (some (Json.obj [("text", Json.str (pyStrip s))]))]) := by
  refine ⟨?_, ?_, ?_, ?_⟩
  · intro t ht
    cases t with
    | str s => exact absurd rfl (ht s)
    | null => rfl
    | bool b => rfl
    | num n => rfl
    | arr xs => rfl
    | obj kvs => rfl
  · intro s hs
    simp [tweet, hs]
  · intro s hs hl
    simp [tweet, hs, hl]
  · intro s hs hl
    simp [tweet, hs, hl]

set_option maxRecDepth 100000 in
theorem claim_C2_witness :
    tweet (fun _ => Response.mk 201 "" none) (Json.num 43)
      = ([], .error (.typeError "Tweet should be a string.")) ∧
    tweet (fun _ => Response.mk 201 "" none) (Json.str " ")
      = ([], .error (.valueError "Tweet should not be empty.")) ∧
    tweet (fun _ => Response.mk 201 "" none)
        (Json.str (String.mk (List.replicate 281 (Char.ofNat 97))))
      = ([], .error (.overflowError
          ("The intended tweet is too long (max: "
            ++ toString TWEET_MAX_LEN ++ ")."))) := by
  refine ⟨?_, ?_, ?_⟩
  · exact (claim_C2 _).1 (Json.num 43) (fun s h => Json.noConfusion h)
  · exact (claim_C2 _).2.1 " " (by decide)
  · exact (claim_C2 _).2.2.1 _ (by decide) (by decide)

/-- C3 counterexample: a 403 response whose parsed body has no errors key
and whose detail field is not a string (here the number 5) makes tweet
raise AttributeError at .endswith, not the generic domain error
(TwitterError) the claim prescribes for every non-duplicate detail, nor
the duplicate error. -/
theorem claim_C3_counterexample :
    (tweet (fun _ => Response.mk 403 ""
        (some (Json.obj [("detail", Json.num 5)]))) (Json.str "hello")).2
      = .error (.attributeError "endswith") ∧
    (tweet (fun _ => Response.mk 403 ""
        (some (Json.obj [("detail", Json.num 5)]))) (Json.str "hello")).2
      ≠ .error (.twitterError (Json.obj [("detail", Json.num 5)])) ∧
    (tweet (fun _ => Response.mk 403 ""
        (some (Json.obj [("detail", Json.num 5)]))) (Json.str "hello")).2
      ≠ .error (.duplicateTweetError (Json.obj [("detail", Json.num 5)])) := by
  have h1 : (tweet (fun _ => Response.mk 403 ""
      (some (Json.obj [("detail", Json.num 5)]))) (Json.str "hello")).2
      = .error (.attributeError "endswith") := by rfl
  refine ⟨h1, ?_, ?_⟩
  · rw [h1]; intro h; injection h with h2; injection h2
  · rw [h1]; intro h; injection h with h2; injection h2

/-- C3 (amended): for every tweet call with valid text whose response has
a parsed dict body without an errors key: on status 403, a detail field
that is a string ending with "duplicate content." raises
DuplicateTweetError carrying the parsed body, and a detail field that is
absent, or a string not ending with that suffix, raises TwitterError
carrying the parsed body (the claim as stated fails when detail holds a
non-string value, which raises AttributeError instead); on status 201 the
data field of the body is returned; on any other status a plain Exception
is raised. -/
theorem claim_C3 (r : Response) (kvs : List (String × Json)) (s : String)
    (hjson : r.json = some (Json.obj kvs)) (herr : dictGet kvs "errors" = none)
    (hs : pyStrip s ≠ "") (hl : ¬ pyLen (pyStrip s) > TWEET_MAX_LEN) :
    (r.status_code = 403 →
      (∀ d, dictGet kvs "detail" = some (Json.str d) →
        (strEndsWith d "duplicate content." = true →
          (tweet (fun _ => r) (Json.str s)).2
            = .error (.duplicateTweetError (Json.obj kvs))) ∧
        (strEndsWith d "duplicate content." = false →
          (tweet (fun _ => r) (Json.str s)).2
            = .error (.twitterError (Json.obj kvs)))) ∧
      (dictGet kvs "detail" = none →
        (tweet (fun _ => r) (Json.str s)).2
          = .error (.twitterError (Json.obj kvs)))) ∧
    (r.status_code = 201 → ∀ dat, dictGet kvs "data" = some dat →
      (tweet (fun _ => r) (Json.str s)).2 = .ok dat) ∧
    (r.status_code ≠ 201 → r.status_code ≠ 403 →
      (tweet (fun _ => r) (Json.str s)).2
        = .error (.exc (statusContentMsg r.status_code kvs))) := by
  have hp : parse r = .ok (r, kvs) := by simp [parse, hjson, herr]
  refine ⟨?_, ?_, ?_⟩
  · intro hst
    constructor
    · intro d hd
      constructor
      · intro hdup
        simp [tweet, hs, hl, hp, hst, hd, hdup]
      · intro hndup
        simp [tweet, hs, hl, hp, hst, hd, hndup]
    · intro hd
      have hne : strEndsWith "" "duplicate content." = false := by decide
      simp [tweet, hs, hl, hp, hst, hd, hne]
  · intro hst dat hdat
    simp [tweet, hs, hl, hp, hst, hdat]
  · intro h201 h403
    simp [tweet, hs, hl, hp, h201, h403]

theorem claim_C3_witness :
    strEndsWith "You are not allowed to create a Tweet with duplicate content."
      "duplicate content." = true ∧
    (tweet (fun _ => Response.mk 403 "" (some (Json.obj [("detail",
        Json.str "You are not allowed to create a Tweet with duplicate content.")])))
      (Json.str "hi")).2
      = .error (.duplicateTweetError (Json.obj [("detail",
          Json.str "You are not allowed to create a Tweet with duplicate content.")])) ∧
    (tweet (fun _ => Response.mk 201 "" (some (Json.obj [("data",
        Json.obj [("id", Json.str "1457709521896357893")])])))
      (Json.str "hi")).2
      = .ok (Json.obj [("id", Json.str "1457709521896357893")]) := by
  refine ⟨by decide, ?_, ?_⟩
  · exact (((claim_C3
      (Response.mk 403 "" (some (Json.obj [("detail",
        Json.str "You are not allowed to create a Tweet with duplicate content.")])))
      [("detail",
        Json.str "You are not allowed to create a Tweet with duplicate content.")]
      "hi" rfl rfl (by decide) (by decide)).1 rfl).1
      "You are not allowed to create a Tweet with duplicate content." rfl).1 (by decide)
  · exact ((claim_C3
      (Response.mk 201 "" (some (Json.obj [("data",
        Json.obj [("id", Json.str "1457709521896357893")])])))
      [("data", Json.obj [("id", Json.str "1457709521896357893")])]
      "hi" rfl rfl (by decide) (by decide)).2.1 rfl
      (Json.obj [("id", Json.str "1457709521896357893")]) rfl)

/-- C4: get_tweets_by_id raises ValueError, issuing no request, when ids
is not a list, is an empty list, or is a list of strings containing the
empty string; on a non-empty list of non-empty strings it issues exactly
one GET whose ids parameter joins the ids with commas; after parsing, a
status of 200 or 400 (with no errors key in the body) returns the data
field of the body, and any other status raises a plain Exception. -/
theorem claim_C4 (r : Response) (kvs : List (String × Json)) :
    (∀ j : Json, (∀ xs, j ≠ Json.arr xs) → ∀ send,
      get_tweets_by_id send j
        = ([], .error (.valueError "A list of tweet ids is required."))) ∧
    (∀ send, get_tweets_by_id send (Json.arr [])
      = ([], .error (.valueError "A list of tweet ids is required."))) ∧
    (∀ ss : List String, "" ∈ ss → ∀ send,
      get_tweets_by_id send (Json.arr (ss.map Json.str))
        = ([], .error (.valueError "A list of tweet ids is required."))) ∧
    (∀ ss : List String, ss ≠ [] → (∀ s ∈ ss, s ≠ "") → ∀ send,
      (get_tweets_by_id send (Json.arr (ss.map Json.str))).1
        = [Request.mk .get tweetsUrl
            [("ids", Json.str (String.intercalate "," ss))] none]) ∧
    (∀ ss : List String, ss ≠ [] → (∀ s ∈ ss, s ≠ "") →
      r.json = some (Json.obj kvs) → dictGet kvs "errors" = none →
      ((r.status_code = 200 ∨ r.status_code = 400) →
        ∀ dat, dictGet kvs "data" = some dat →
        (get_tweets_by_id (fun _ => r) (Json.arr (ss.map Json.str))).2
          = .ok dat) ∧
      (r.status_code ≠ 200 → r.status_code ≠ 400 →
        (get_tweets_by_id (fun _ => r) (Json.arr (ss.map Json.str))).2
          = .error (.exc (statusTextMsg r.status_code r.text)))) := by
  refine ⟨?_, ?_, ?_, ?_, ?_⟩
  · intro j hj send
    cases j with
    | arr xs => exact absurd rfl (hj xs)
    | null => rfl
    | bool b => cases b <;> rfl
    | num n => simp [get_tweets_by_id, isJList]
    | str s => simp [get_tweets_by_id, isJList]
    | obj kv => simp [get_tweets_by_id, isJList]
  · intro send
    rfl
  · intro ss hmem send
    have ha : pyAll (Json.arr (ss.map Json.str)) = false := by
      simp only [pyAll, List.all_eq_false]
      exact ⟨Json.str "", List.mem_map_of_mem _ hmem, by simp [pyBool]⟩
    simp [get_tweets_by_id, ha]
  · intro ss hne hel send
    have hb : pyBool (Json.arr (ss.map Json.str)) = true := by
      simp [pyBool, hne]
    have ha : pyAll (Json.arr (ss.map Json.str)) = true := by
      simp [pyAll, pyBool]
      intro s hsmem
      exact hel s hsmem
    simp [get_tweets_by_id, hb, ha, isJList, jListElems, strJoin_map_str]
  · intro ss hne hel hjson herr
    have hb : pyBool (Json.arr (ss.map Json.str)) = true := by
      simp [pyBool, hne]
    have ha : pyAll (Json.arr (ss.map Json.str)) = true := by
      simp [pyAll, pyBool]
      intro s hsmem
      exact hel s hsmem
    have hp : parse r = .ok (r, kvs) := by simp [parse, hjson, herr]
    constructor
    · intro hst dat hdat
      simp [get_tweets_by_id, hb, ha, isJList, jListElems, strJoin_map_str,
        hp, hst, hdat]
    · intro h200 h400
      simp [get_tweets_by_id, hb, ha, isJList, jListElems, strJoin_map_str,
        hp, h200, h400]

theorem claim_C4_witness :
    get_tweets_by_id (fun _ => Response.mk 200 "" none) (Json.arr [])
      = ([], .error (.valueError "A list of tweet ids is required.")) ∧
    get_tweets_by_id (fun _ => Response.mk 200 "" none)
        (Json.arr ([""].map Json.str))
      = ([], .error (.valueError "A list of tweet ids is required.")) ∧
    (get_tweets_by_id
        (fun _ => Response.mk 200 ""
          (some (Json.obj [("data", Json.arr [])])))
        (Json.arr (["20", "21"].map Json.str))).2
      = .ok (Json.arr []) := by
  refine ⟨?_, ?_, ?_⟩
  · exact (claim_C4 (Response.mk 200 "" none) []).2.1 _
  · exact (claim_C4 (Response.mk 200 "" none) []).2.2.1 [""] (by decide) _
  · exact (((claim_C4 (Response.mk 200 "" (some (Json.obj [("data", Json.arr [])])))
      [("data", Json.arr [])]).2.2.2.2 ["20", "21"] (by decide) (by decide)
      rfl rfl).1 (Or.inl rfl) (Json.arr []) rfl)

/-- C6: untweet always issues exactly one DELETE request to the tweet
endpoint; when the parsed body has no errors key, status 403 raises
TwitterError carrying the parsed body, status 200 returns the data field
of the body, and any other status raises a plain Exception. -/
theorem claim_C6 (r : Response) (kvs : List (String × Json)) (id : String) :
    (∀ send, (untweet send id).1
      = [Request.mk .delete (tweetsUrl ++ "/" ++ id) [] none]) ∧
    (r.json = some (Json.obj kvs) → dictGet kvs "errors" = none →
      (r.status_code = 403 →
        (untweet (fun _ => r) id).2 = .error (.twitterError (Json.obj kvs))) ∧
      (r.status_code = 200 → ∀ dat, dictGet kvs "data" = some dat →
        (untweet (fun _ => r) id).2 = .ok dat) ∧
      (r.status_code ≠ 403 → r.status_code ≠ 200 →
        (untweet (fun _ => r) id).2
          = .error (.exc (statusContentMsg r.status_code kvs)))) := by
  constructor
  · intro send
    rfl
  · intro hjson herr
    have hp : parse r = .ok (r, kvs) := by simp [parse, hjson, herr]
    refine ⟨?_, ?_, ?_⟩
    · intro hst
      simp [untweet, hp, hst]
    · intro hst dat hdat
      simp [untweet, hp, hst, hdat]
    · intro h403 h200
      simp [untweet, hp, h403, h200]

theorem claim_C6_witness :
    (untweet (fun _ => Response.mk 200 ""
        (some (Json.obj [("data", Json.obj [("deleted", Json.bool true)])])))
      "20").1
      = [Request.mk .delete (tweetsUrl ++ "/" ++ "20") [] none] ∧
    (untweet (fun _ => Response.mk 200 ""
        (some (Json.obj [("data", Json.obj [("deleted", Json.bool true)])])))
      "20").2
      = .ok (Json.obj [("deleted", Json.bool true)]) ∧
    (untweet (fun _ => Response.mk 403 ""
        (some (Json.obj [("data", Json.obj [("deleted", Json.bool false)])])))
      "20").2
      = .error (.twitterError
          (Json.obj [("data", Json.obj [("deleted", Json.bool false)])])) := by
  refine ⟨?_, ?_, ?_⟩
  · exact (claim_C6 (Response.mk 200 ""
      (some (Json.obj [("data", Json.obj [("deleted", Json.bool true)])])))
      [("data", Json.obj [("deleted", Json.bool true)])] "20").1 _
  · exact ((claim_C6 (Response.mk 200 ""
      (some (Json.obj [("data", Json.obj [("deleted", Json.bool true)])])))
      [("data", Json.obj [("deleted", Json.bool true)])] "20").2 rfl rfl).2.1 rfl
      (Json.obj [("deleted", Json.bool true)]) rfl
  · exact ((claim_C6 (Response.mk 403 ""
      (some (Json.obj [("data", Json.obj [("deleted", Json.bool false)])])))
      [("data", Json.obj [("deleted", Json.bool false)])] "20").2 rfl rfl).1 rfl

theorem checkCreds_fails (auth : List (String × String)) (keys : List String)
    (h : ∃ k ∈ keys, dictGet auth k = none ∨ dictGet auth k = some "") :
    ∃ e, checkCreds auth keys = .error e ∧
      (classOf e = .keyErrorC ∨ classOf e = .valueErrorC) := by
  induction keys with
  | nil =>
    rcases h with ⟨k, hk, _⟩
    cases hk
  | cons k ks ih =>
    rcases h with ⟨k0, hk0, hbad⟩
    rcases List.mem_cons.1 hk0 with rfl | hk0tl
    · rcases hbad with hnone | hempty
      · exact ⟨PyErr.keyError k0, by simp [checkCreds, hnone], Or.inl rfl⟩
      · exact ⟨PyErr.valueError ("Nontrivial value expected for "
            ++ squo ++ k0 ++ squo ++ "."),
          by simp [checkCreds, hempty], Or.inr rfl⟩
    · cases hh : dictGet auth k with
      | none => exact ⟨PyErr.keyError k, by simp [checkCreds, hh], Or.inl rfl⟩
      | some v =>
        by_cases hv : v = ""
        · subst hv
          exact ⟨PyErr.valueError ("Nontrivial value expected for "
              ++ squo ++ k ++ squo ++ "."),
            by simp [checkCreds, hh], Or.inr rfl⟩
        · rcases ih ⟨k0, hk0tl, hbad⟩ with ⟨e, he, hc⟩
          exact ⟨e, by simp [checkCreds, hh, hv, he], hc⟩

theorem checkCreds_ok (auth : List (String × String)) (keys : List String)
    (h : ∀ k ∈ keys, ∃ v, dictGet auth k = some v ∧ v ≠ "") :
    checkCreds auth keys = .ok () := by
  induction keys with
  | nil => rfl
  | cons k ks ih =>
    rcases h k (List.mem_cons_self k ks) with ⟨v, hv, hne⟩
    have := ih (fun k2 hk2 => h k2 (List.mem_cons_of_mem k hk2))
    simp [checkCreds, hv, hne, this]

/-- C7: client construction fails with a KeyError or ValueError whenever
one of the four credential keys is absent or bound to the empty string,
and succeeds whenever all four are present and non-empty and no other
keys are supplied. -/
theorem claim_C7 (auth : List (String × String)) :
    ((∃ k ∈ renameTable.map Prod.fst,
        dictGet auth k = none ∨ dictGet auth k = some "") →
      ∃ e, littleBirdInit auth = .error e ∧
        (classOf e = .keyErrorC ∨ classOf e = .valueErrorC)) ∧
    ((∀ k ∈ renameTable.map Prod.fst, ∃ v, dictGet auth k = some v ∧ v ≠ "") →
     (∀ kv ∈ auth, kv.1 ∈ renameTable.map Prod.fst) →
      littleBirdInit auth
        = .ok (auth.map (fun kv => ((dictGet renameTable kv.1).getD kv.1, kv.2)))) := by
  constructor
  · intro h
    rcases checkCreds_fails auth (renameTable.map Prod.fst) h with ⟨e, he, hc⟩
    exact ⟨e, by simp [littleBirdInit, he], hc⟩
  · intro hall hkeys
    have hck : checkCreds auth (renameTable.map Prod.fst) = .ok () :=
      checkCreds_ok auth _ hall
    simp [littleBirdInit, hck]
    intro x x2 hmem
    have hmem2 := hkeys (x, x2) hmem
    simp only [renameTable, List.map_cons, List.map_nil, List.mem_cons,
      List.mem_singleton, List.not_mem_nil, or_false] at hmem2
    rcases hmem2 with rfl | rfl | rfl | rfl
    · decide
    · decide
    · decide
    · decide

theorem claim_C7_witness :
    (∃ e, littleBirdInit [("consumer_key", "ck"), ("consumer_secret", "cs"),
        ("access_token", "at"), ("access_token_secret", "")] = .error e ∧
      (classOf e = .keyErrorC ∨ classOf e = .valueErrorC)) ∧
    littleBirdInit [("consumer_key", "ck"), ("consumer_secret", "cs"),
        ("access_token", "at"), ("access_token_secret", "ats")]
      = .ok ([("consumer_key", "ck"), ("consumer_secret", "cs"),
          ("access_token", "at"), ("access_token_secret", "ats")].map
            (fun kv => ((dictGet renameTable kv.1).getD kv.1, kv.2))) := by
  constructor
  · exact (claim_C7 _).1 ⟨"access_token_secret", by decide, Or.inr (by decide)⟩
  · refine (claim_C7 _).2 ?_ (by decide)
    intro k hk
    simp only [renameTable, List.map_cons, List.map_nil, List.mem_cons,
      List.mem_singleton, List.not_mem_nil, or_false] at hk
    rcases hk with rfl | rfl | rfl | rfl
    · exact ⟨"ck", rfl, by decide⟩
    · exact ⟨"cs", rfl, by decide⟩
    · exact ⟨"at", rfl, by decide⟩
    · exact ⟨"ats", rfl, by decide⟩

/-- C8: strftime renders a Unix epoch timestamp as its UTC civil time in
the wire format YYYY-MM-DDTHH:MM:SSZ, independently of the host timezone
offset, and tweets_by_user_id places exactly that rendering in the
start_time and end_time request parameters. -/
theorem claim_C8 (off off2 t : Int) (st et : Option Int) :
    strftime off t = formatEpochUTC t ∧
    strftime off t = strftime off2 t ∧
    (∃ y mo d h mi s2, civilFromEpoch t = (y, mo, d, h, mi, s2) ∧
      strftime off t = pad4 y ++ "-" ++ pad2 mo ++ "-" ++ pad2 d ++ "T"
        ++ pad2 h ++ ":" ++ pad2 mi ++ ":" ++ pad2 s2 ++ "Z") ∧
    (t ≠ 0 → dictGet (initParams off (some t) et) "start_time"
      = some (Json.str (formatEpochUTC t))) ∧
    (t ≠ 0 → dictGet (initParams off st (some t)) "end_time"
      = some (Json.str (formatEpochUTC t))) := by
  have key : ∀ u o : Int, u + o - o = u := fun u o => by ring
  have h0 : ∀ o : Int, strftime o t = formatEpochUTC t := by
    intro o
    simp [strftime, fromtimestamp, astimezoneUtc, formatEpochUTC, key]
  refine ⟨h0 off, (h0 off).trans (h0 off2).symm, ?_, ?_, ?_⟩
  · rcases hc : civilFromEpoch t with ⟨y, mo, d, h, mi, s2⟩
    refine ⟨y, mo, d, h, mi, s2, rfl, ?_⟩
    rw [h0 off]
    unfold formatEpochUTC
    rw [hc]
    rfl
  · intro ht
    have hbne : (t != 0) = true := by simp [bne_iff_ne, ht]
    rcases et with _ | v
    · simp [initParams, hbne, dictGet_dictUpdate_same, h0 off]
    · by_cases hv : (v != 0) = true
      · simp only [initParams, hbne, hv, if_true]
        rw [dictGet_dictUpdate_ne _ _ _ _ (by decide),
          dictGet_dictUpdate_same, h0 off]
      · simp only [Bool.not_eq_true] at hv
        simp [initParams, hbne, hv, dictGet_dictUpdate_same, h0 off]
  · intro ht
    have hbne : (t != 0) = true := by simp [bne_iff_ne, ht]
    rcases st with _ | w
    · simp [initParams, hbne, dictGet_dictUpdate_same, h0 off]
    · by_cases hw : (w != 0) = true
      · simp only [initParams, hbne, hw, if_true]
        rw [dictGet_dictUpdate_same, h0 off]
      · simp only [Bool.not_eq_true] at hw
        simp [initParams, hbne, hw, dictGet_dictUpdate_same, h0 off]

theorem claim_C8_witness :
    (1636329600 : Int) ≠ 0 ∧
    dictGet (initParams 3600 (some 1636329600) none) "start_time"
      = some (Json.str (formatEpochUTC 1636329600)) ∧
    dictGet (initParams (-25200) none (some 1636329600)) "end_time"
      = some (Json.str (formatEpochUTC 1636329600)) ∧
    formatEpochUTC 1636329600 = "2021-11-08T00:00:00Z" := by
  refine ⟨by decide, ?_, ?_, by decide⟩
  · exact (claim_C8 3600 0 1636329600 none none).2.2.2.1 (by decide)
  · exact (claim_C8 (-25200) 0 1636329600 none none).2.2.2.2 (by decide)

/-- C9: a start_time or end_time equal to 0 is treated by
tweets_by_user_id exactly like an absent argument: the whole run is
identical and no start_time or end_time parameter is included, because
the source tests the arguments by truthiness. -/
theorem claim_C9 (off : Int) (uid : String) (st et : Option Int)
    (resps : List Response) :
    tweets_by_user_id off uid (some 0) et resps
      = tweets_by_user_id off uid none et resps ∧
    tweets_by_user_id off uid st (some 0) resps
      = tweets_by_user_id off uid st none resps ∧
    dictGet (initParams off (some 0) et) "start_time" = none ∧
    dictGet (initParams off st (some 0)) "end_time" = none := by
  have h1 : initParams off (some 0) et = initParams off none et := by
    simp [initParams]
  have h2 : ∀ s, initParams off s (some 0) = initParams off s none := by
    intro s
    simp [initParams]
  refine ⟨by simp [tweets_by_user_id, h1], by simp [tweets_by_user_id, h2 st],
    ?_, ?_⟩
  · rw [h1]
    rcases et with _ | v
    · rfl
    · by_cases hv : (v != 0) = true
      · simp only [initParams, hv, if_true]
        rw [dictGet_dictUpdate_ne _ _ _ _ (by decide)]
        rfl
      · simp only [Bool.not_eq_true] at hv
        simp only [initParams, hv, Bool.false_eq_true, if_false]
        rfl
  · rw [h2 st]
    rcases st with _ | w
    · rfl
    · by_cases hw : (w != 0) = true
      · simp only [initParams, hw, if_true]
        rw [dictGet_dictUpdate_ne _ _ _ _ (by decide)]
        rfl
      · simp only [Bool.not_eq_true] at hw
        simp only [initParams, hw, Bool.false_eq_true, if_false]
        rfl

/-- A well-formed run of pages: every response parses to a dict without an
errors key that carries a meta dict and a data array; every page but the
last holds next_token in its meta (toks lists those tokens in order) and
the last page omits it. -/
inductive GoodPages : List Response → List (List Json) → List Json → Prop
  | last (r : Response) (kvs m : List (String × Json)) (d : List Json) :
      r.json = some (.obj kvs) → dictGet kvs "errors" = none →
      dictGet kvs "meta" = some (.obj m) →
      dictGet kvs "data" = some (.arr d) →
      dictGet m "next_token" = none →
      GoodPages [r] [d] []
  | cons (r : Response) (kvs m : List (String × Json)) (d : List Json)
      (tok : Json) (rest : List Response) (ds : List (List Json))
      (toks : List Json) :
      r.json = some (.obj kvs) → dictGet kvs "errors" = none →
      dictGet kvs "meta" = some (.obj m) →
      dictGet kvs "data" = some (.arr d) →
      dictGet m "next_token" = some tok →
      GoodPages rest ds toks →
      GoodPages (r :: rest) (d :: ds) (tok :: toks)

/-- Chaining of a request-parameter trace: each request after the first
carries pagination_token equal to the corresponding token of toks. -/
def chainedTokens : List (List (String × Json)) → List Json → Prop
  | _ :: p2 :: rest, tok :: toks =>
      dictGet p2 "pagination_token" = some tok ∧ chainedTokens (p2 :: rest) toks
  | [_], [] => True
  | _, _ => False

theorem paginateLoop_run (resps : List Response) (ds : List (List Json))
    (toks : List Json) (hg : GoodPages resps ds toks) :
    ∀ params : List (String × Json),
      (paginateLoop params resps).1.length = resps.length ∧
      (paginateLoop params resps).2.1 = ds.flatten ∧
      (paginateLoop params resps).2.2 = none ∧
      (∀ p ∈ (paginateLoop params resps).1,
        dictGet p "max_results" = dictGet params "max_results") ∧
      (paginateLoop params resps).1.head? = some params ∧
      chainedTokens (paginateLoop params resps).1 toks := by
  induction hg with
  | last r kvs m d hjson herr hm hd hnt =>
    intro params
    have hp : parse r = .ok (r, kvs) := by simp [parse, hjson, herr]
    have hrun : paginateLoop params [r] = ([params], d, none) := by
      simp [paginateLoop, hp, hm, hd, hnt]
    rw [hrun]
    refine ⟨rfl, by simp, rfl, ?_, rfl, trivial⟩
    intro p hp2
    rcases List.mem_singleton.1 hp2 with rfl
    rfl
  | cons r kvs m d tok rest ds toks hjson herr hm hd hnt hrest ih =>
    intro params
    have hp : parse r = .ok (r, kvs) := by simp [parse, hjson, herr]
    have hstep : paginateLoop params (r :: rest)
        = (params ::
            (paginateLoop (dictUpdate params "pagination_token" tok) rest).1,
           d ++ (paginateLoop (dictUpdate params "pagination_token" tok) rest).2.1,
           (paginateLoop (dictUpdate params "pagination_token" tok) rest).2.2) := by
      simp [paginateLoop, hp, hm, hd, hnt]
    rcases ih (dictUpdate params "pagination_token" tok) with
      ⟨ihl, ihy, ihe, ihm, ihh, ihc⟩
    rw [hstep]
    refine ⟨by simp [ihl], by simp [ihy], ihe, ?_, rfl, ?_⟩
    · intro p hp2
      rcases List.mem_cons.1 hp2 with rfl | htl
      · rfl
      · rw [ihm p htl]
        exact dictGet_dictUpdate_ne params "pagination_token" "max_results" tok
          (by decide)
    · rcases htr : (paginateLoop (dictUpdate params "pagination_token" tok) rest).1
        with _ | ⟨p2, tl⟩
      · rw [htr] at ihh
        cases ihh
      · rw [htr] at ihh ihc
        have hp2 : p2 = dictUpdate params "pagination_token" tok := by
          simpa using ihh
        subst hp2
        exact ⟨dictGet_dictUpdate_same params "pagination_token" tok, ihc⟩

theorem initParams_max_results (off : Int) (st et : Option Int) :
    dictGet (initParams off st et) "max_results" = some (Json.num 50) := by
  have hne1 : ("max_results" : String) ≠ "start_time" := by decide
  have hne2 : ("max_results" : String) ≠ "end_time" := by decide
  rcases st with _ | v <;> rcases et with _ | w
  · rfl
  · by_cases hw : (w != 0) = true
    · simp only [initParams, hw, if_true]
      rw [dictGet_dictUpdate_ne _ _ _ _ hne2]
      rfl
    · simp only [Bool.not_eq_true] at hw
      simp only [initParams, hw, Bool.false_eq_true, if_false]
      rfl
  · by_cases hv : (v != 0) = true
    · simp only [initParams, hv, if_true]
      rw [dictGet_dictUpdate_ne _ _ _ _ hne1]
      rfl
    · simp only [Bool.not_eq_true] at hv
      simp only [initParams, hv, Bool.false_eq_true, if_false]
      rfl
  · by_cases hv : (v != 0) = true <;> by_cases hw : (w != 0) = true
    · simp only [initParams, hv, hw, if_true]
      rw [dictGet_dictUpdate_ne _ _ _ _ hne2,
        dictGet_dictUpdate_ne _ _ _ _ hne1]
      rfl
    · simp only [Bool.not_eq_true] at hw
      simp only [initParams, hv, hw, Bool.false_eq_true, if_true, if_false]
      rw [dictGet_dictUpdate_ne _ _ _ _ hne1]
      rfl
    · simp only [Bool.not_eq_true] at hv
      simp only [initParams, hv, hw, Bool.false_eq_true, if_true, if_false]
      rw [dictGet_dictUpdate_ne _ _ _ _ hne2]
      rfl
    · simp only [Bool.not_eq_true] at hv hw
      simp only [initParams, hv, hw, Bool.false_eq_true, if_false]
      rfl

/-- C5: over every well-formed finite sequence of pages, tweets_by_user_id
yields exactly the concatenation, in order, of the data arrays of the
successive pages; it issues one GET per page, every request carrying
max_results 50, and every request after the first carrying
pagination_token equal to the next_token in the meta of the preceding page; the
generator finishes normally exactly at the page whose meta omits
next_token, whose data is still yielded. -/
theorem claim_C5 (off : Int) (uid : String) (st et : Option Int)
    (resps : List Response) (ds : List (List Json)) (toks : List Json)
    (hg : GoodPages resps ds toks) :
    (tweets_by_user_id off uid st et resps).2.1 = ds.flatten ∧
    (tweets_by_user_id off uid st et resps).2.2 = none ∧
    (tweets_by_user_id off uid st et resps).1.length = resps.length ∧
    (∀ req ∈ (tweets_by_user_id off uid st et resps).1,
      req.method = .get ∧ req.url = userTweetsUrl uid ∧
      dictGet req.params "max_results" = some (Json.num 50)) ∧
    chainedTokens
      ((tweets_by_user_id off uid st et resps).1.map Request.params) toks := by
  rcases paginateLoop_run resps ds toks hg (initParams off st et) with
    ⟨hl, hy, he, hmax, hhead, hc⟩
  have h50 := initParams_max_results off st et
  refine ⟨?_, ?_, ?_, ?_, ?_⟩
  · simpa [tweets_by_user_id] using hy
  · simpa [tweets_by_user_id] using he
  · simp [tweets_by_user_id, hl]
  · intro req hreq
    simp only [tweets_by_user_id, List.mem_map] at hreq
    rcases hreq with ⟨p, hp, rfl⟩
    exact ⟨rfl, rfl, (hmax p hp).trans h50⟩
  · have hmm : (tweets_by_user_id off uid st et resps).1.map Request.params
        = (paginateLoop (initParams off st et) resps).1 := by
      simp only [tweets_by_user_id, List.map_map, Function.comp_def]
      exact List.map_id' _
    rw [hmm]
    exact hc

theorem claim_C5_witness :
    GoodPages
      [Response.mk 200 "" (some (Json.obj
        [("data", Json.arr [Json.str "t1", Json.str "t2"]),
         ("meta", Json.obj [("next_token", Json.str "n1")])])),
       Response.mk 200 "" (some (Json.obj
        [("data", Json.arr [Json.str "t3"]),
         ("meta", Json.obj [])]))]
      [[Json.str "t1", Json.str "t2"], [Json.str "t3"]]
      [Json.str "n1"] ∧
    (tweets_by_user_id 0 "15506669" none none
      [Response.mk 200 "" (some (Json.obj
        [("data", Json.arr [Json.str "t1", Json.str "t2"]),
         ("meta", Json.obj [("next_token", Json.str "n1")])])),
       Response.mk 200 "" (some (Json.obj
        [("data", Json.arr [Json.str "t3"]),
         ("meta", Json.obj [])]))]).2.1
      = [[Json.str "t1", Json.str "t2"], [Json.str "t3"]].flatten := by
  have hg : GoodPages
      [Response.mk 200 "" (some (Json.obj
        [("data", Json.arr [Json.str "t1", Json.str "t2"]),
         ("meta", Json.obj [("next_token", Json.str "n1")])])),
       Response.mk 200 "" (some (Json.obj
        [("data", Json.arr [Json.str "t3"]),
         ("meta", Json.obj [])]))]
      [[Json.str "t1", Json.str "t2"], [Json.str "t3"]]
      [Json.str "n1"] :=
    GoodPages.cons _ _ _ _ _ _ _ _ rfl rfl rfl rfl rfl
      (GoodPages.last _ _ _ _ rfl rfl rfl rfl rfl)
  exact ⟨hg, (claim_C5 0 "15506669" none none _ _ _ hg).1⟩

/-- C10: DuplicateTweetError is a subclass of TwitterError, so every
handler catching the domain error also catches the duplicate error, while
TwitterError is not a subclass of Exception (it derives from
BaseException), so a handler catching only Exception catches neither the
domain error nor the duplicate error. -/
theorem claim_C10 :
    isSubclassOf .duplicateTweetErrorC .twitterErrorC = true ∧
    isSubclassOf .twitterErrorC .exceptionC = false ∧
    (∀ c : PyClass, isSubclassOf .twitterErrorC c = true →
      isSubclassOf .duplicateTweetErrorC c = true) ∧
    (∀ p : Json, catches .exceptionC (.twitterError p) = false ∧
      catches .exceptionC (.duplicateTweetError p) = false) := by
  refine ⟨rfl, rfl, by decide, ?_⟩
  intro p
  exact ⟨rfl, rfl⟩

theorem claim_C10_witness :
    isSubclassOf .twitterErrorC .twitterErrorC = true ∧
    isSubclassOf .duplicateTweetErrorC .twitterErrorC = true := by
  constructor
  · rfl
  · exact claim_C10.2.2.1 .twitterErrorC rfl
